import Mathlib

/-!
Shallow embedding of the NFT-House-Valuation inference server
(src/machine_learning/utils.py and src/machine_learning/main.py).

The program is a Flask app exposing POST /predict.  It loads a Keras model
and an sklearn scaler at startup, and the handler parses the JSON body,
aligns it to the scaler's expected feature columns (zero-filling missing
features, dropping extras), scales, predicts, applies np.expm1 and rounds
to two decimals.

Modelling choices:
- numeric values are rationals (the code's floats, idealised exactly);
- np.expm1 is an abstract elementwise function, passed as a parameter f;
  where a claim needs properties of the true expm1 we either hypothesise
  them (Expm1Spec) or hypothesise the needed inequality on f y directly;
- a single-row pandas DataFrame is a list of column names plus a list of
  rows (each row a list of rationals);
- library calls that can raise (scaler.transform, model.predict, ndarray
  indexing) return Except String, the String being str(e) of the raised
  exception;
- Flask semantics: request.json on an unparseable body raises BadRequest
  BEFORE the try block of the handler; Flask converts that HTTPException
  into its default error response: status 400 with an HTML body, not a
  JSON object.
-/

/-- A JSON object with numeric fields, as the Python dict produced by
`request.json` (keys unique, insertion-ordered). -/
abbrev Record := List (String × ℚ)

/-- Dictionary lookup with a default, mirroring how a pandas single-row
frame built from a dict yields the value stored under a key. -/
def recordGetD (d : Record) (k : String) (v : ℚ) : ℚ :=
  match d.find? (fun p => p.1 == k) with
  | some p => p.2
  | none => v

/-- A pandas DataFrame: named columns and a list of rows. -/
structure DataFrame where
  cols : List String
  rows : List (List ℚ)
deriving DecidableEq

/-- Models `pd.DataFrame([house_data])` for the one-element list the source
constructs: one row whose columns are the dict keys in insertion order. -/
def pdDataFrame1 (r : Record) : DataFrame :=
  ⟨r.map Prod.fst, [r.map Prod.snd]⟩

/-- Value of column `c` in a row, given the frame's column list. -/
def rowGet (cols : List String) (row : List ℚ) (c : String) : Option ℚ :=
  ((cols.zip row).find? (fun p => p.1 == c)).map Prod.snd

/-- Models `df[c] = v`: overwrite the column if present, else append it
(broadcast over all rows). -/
def DataFrame.assign (df : DataFrame) (c : String) (v : ℚ) : DataFrame :=
  if c ∈ df.cols then
    ⟨df.cols, df.rows.map (fun row => (df.cols.zip row).map (fun p => if p.1 == c then v else p.2))⟩
  else
    ⟨df.cols ++ [c], df.rows.map (fun row => row ++ [v])⟩

/-- Models `df[cs]` column selection: reorders and drops columns, raising
KeyError when a requested column is absent. -/
def DataFrame.select (df : DataFrame) (cs : List String) : Except String DataFrame :=
  if ∀ c ∈ cs, c ∈ df.cols then
    Except.ok ⟨cs, df.rows.map (fun row => cs.map (fun c => (rowGet df.cols row c).getD 0))⟩
  else
    Except.error ("KeyError: columns not in index")

/-- The fitted sklearn scaler artifact: its learned feature names and its
transform.  transform consumes the aligned numeric rows of the frame and
may raise (returned as Except.error with the exception text). -/
structure Scaler where
  feature_names_in_ : List String
  transform : List (List ℚ) → Except String (List (List ℚ))

/-- The trained Keras model artifact: predict maps a 2-D numeric array to a
2-D numeric array and may raise. -/
structure KerasModel where
  predict : List (List ℚ) → Except String (List (List ℚ))

/-- Embeds `preprocess_single_house` (src/machine_learning/utils.py):
build a one-row frame from the dict, add a zero column for every expected
feature not present, reindex to `scaler.feature_names_in_`, and transform.
The Python set difference is iterated here in feature_names_in_ order; the
final reindex makes the iteration order immaterial. -/
def preprocess_single_house (house_data : Record) (scaler : Scaler) :
    Except String (List (List ℚ)) :=
  let house_df := pdDataFrame1 house_data
  let missing_features := scaler.feature_names_in_.filter (fun f => decide (f ∉ house_df.cols))
  let house_df := missing_features.foldl (fun df feature => df.assign feature 0) house_df
  match house_df.select scaler.feature_names_in_ with
  | Except.ok df => scaler.transform df.rows
  | Except.error e => Except.error e

/-- The row `preprocess_single_house` is specified to align to: the expected
features in order, taking the input's value when present and 0 otherwise. -/
def alignedRow (names : List String) (d : Record) : List ℚ :=
  names.map (fun c => recordGetD d c 0)

/-- Models `np.expm1` applied elementwise to a 2-D array, with the scalar
expm1 abstracted as `f`. -/
def npExpm1 (f : ℚ → ℚ) (a : List (List ℚ)) : List (List ℚ) :=
  a.map (List.map f)

/-- Models `a[0][0]` on a 2-D array: IndexError when a dimension is empty. -/
def index00 (a : List (List ℚ)) : Except String ℚ :=
  match a with
  | [] => Except.error ("IndexError: index 0 is out of bounds for axis 0 with size 0")
  | r :: _ =>
    match r with
    | [] => Except.error ("IndexError: index 0 is out of bounds for axis 0 with size 0")
    | y :: _ => Except.ok y

/-- Python round-half-to-even on an exact rational. -/
def pyRound (x : ℚ) : ℤ :=
  if x - ⌊x⌋ < 1 / 2 then ⌊x⌋
  else if 1 / 2 < x - ⌊x⌋ then ⌊x⌋ + 1
  else if ⌊x⌋ % 2 = 0 then ⌊x⌋ else ⌊x⌋ + 1

/-- Models `round(x, 2)`. -/
def round2 (x : ℚ) : ℚ := (pyRound (100 * x) : ℚ) / 100

/-- The parsed JSON body handed to the handler.  `obj` is a JSON object
with numeric fields; `otherRaising msg` stands for any other parsed value
on which the preprocessing pipeline raises an exception with text `msg`
(non-object bodies are outside every claim's scope and are modelled only
by their possible failure). -/
inductive PyData where
  | obj : Record → PyData
  | otherRaising : String → PyData
deriving DecidableEq

/-- `preprocess_single_house(data, scaler)` as called from the handler,
where `data` is whatever `request.json` produced. -/
def preprocessData (data : PyData) (scaler : Scaler) : Except String (List (List ℚ)) :=
  match data with
  | PyData.obj d => preprocess_single_house d scaler
  | PyData.otherRaising msg => Except.error msg

/-- A request body for POST /predict: either unparseable JSON or a parsed
value (Content-Type application/json assumed throughout). -/
inductive ReqBody where
  | malformed : ReqBody
  | json : PyData → ReqBody
deriving DecidableEq

/-- `request.json`: parse failure raises werkzeug BadRequest. -/
def requestJson (body : ReqBody) : Except String PyData :=
  match body with
  | ReqBody.malformed => Except.error ("400 Bad Request: Failed to decode JSON object")
  | ReqBody.json d => Except.ok d

/-- Body of an HTTP response: the handler's two jsonify shapes, or the
HTML error document the framework produces for an uncaught HTTPException. -/
inductive RespBody where
  | jsonPrice : ℚ → RespBody
  | jsonError : String → RespBody
  | html : String → RespBody
deriving DecidableEq

structure HttpResponse where
  status : Nat
  body : RespBody
deriving DecidableEq

/-- Flask's default rendering of the BadRequest raised by `request.json`:
status 400 with werkzeug's HTML error document. -/
def frameworkErrorResponse : HttpResponse :=
  ⟨400, RespBody.html ("<html>400 Bad Request: the server could not understand the request</html>")⟩

/-- The body of the handler's try block: preprocess, predict, reverse the
log transform elementwise, index [0][0], round to two decimals. -/
def tryBody (f : ℚ → ℚ) (model : KerasModel) (scaler : Scaler) (data : PyData) :
    Except String ℚ :=
  match preprocessData data scaler with
  | Except.error e => Except.error e
  | Except.ok house_data_scaled =>
    match model.predict house_data_scaled with
    | Except.error e => Except.error e
    | Except.ok predicted_log_price =>
      match index00 (npExpm1 f predicted_log_price) with
      | Except.error e => Except.error e
      | Except.ok y => Except.ok (round2 y)

/-- The `/predict` route handler (src/machine_learning/main.py).  Note that
`data = request.json` runs BEFORE the try block, so a JSON parse failure
propagates to the framework; only exceptions from the try body reach the
handler's own except branch. -/
def handlePredict (f : ℚ → ℚ) (model : KerasModel) (scaler : Scaler) (body : ReqBody) :
    HttpResponse :=
  match requestJson body with
  | Except.error _ => frameworkErrorResponse
  | Except.ok data =>
    match tryBody f model scaler data with
    | Except.ok price => ⟨200, RespBody.jsonPrice price⟩
    | Except.error e => ⟨400, RespBody.jsonError e⟩

/-- Models `load_trained_model_and_scaler`: deserialize the two artifacts. -/
def load_trained_model_and_scaler (modelFile : KerasModel) (scalerFile : Scaler) :
    KerasModel × Scaler :=
  (modelFile, scalerFile)

/-- The process-lifetime globals of main.py. -/
structure ServerState where
  model : KerasModel
  scaler : Scaler

/-- The state produced by the module-level load at startup. -/
def startupState (modelFile : KerasModel) (scalerFile : Scaler) : ServerState :=
  let p := load_trained_model_and_scaler modelFile scalerFile
  ⟨p.1, p.2⟩

/-- One request dispatch: the handler reads the globals and returns a
response; it contains no assignment to them, so the state is passed
through unchanged. -/
def handleRequest (f : ℚ → ℚ) (st : ServerState) (body : ReqBody) :
    ServerState × HttpResponse :=
  (st, handlePredict f st.model st.scaler body)

/-- Process a sequence of requests, threading the server state. -/
def runRequests (f : ℚ → ℚ) (st : ServerState) (bs : List ReqBody) :
    ServerState × List HttpResponse :=
  match bs with
  | [] => (st, [])
  | b :: rest =>
    let p := handleRequest f st b
    let q := runRequests f p.1 rest
    (q.1, p.2 :: q.2)

/-! ### List helper lemmas -/

theorem zip_fst_snd (d : Record) : (d.map Prod.fst).zip (d.map Prod.snd) = d := by
  induction d with
  | nil => rfl
  | cons p t ih => simp [ih]

theorem find?_append_cases {α : Type} (p : α → Bool) (l₁ l₂ : List α) :
    (l₁ ++ l₂).find? p =
      match l₁.find? p with
      | some x => some x
      | none => l₂.find? p := by
  induction l₁ with
  | nil => simp
  | cons a t ih =>
    by_cases h : p a
    · simp [List.find?, h]
    · simp only [List.cons_append, List.find?]
      rw [Bool.eq_false_iff.mpr h]
      simpa using ih

theorem zip_map_const (ms : List String) :
    ms.zip (ms.map (fun _ => (0 : ℚ))) = ms.map (fun m => (m, (0 : ℚ))) := by
  induction ms with
  | nil => rfl
  | cons m t ih => simp only [List.map, List.zip_cons_cons, ih]

theorem find?_pair_zero (ms : List String) (c : String) (h : c ∈ ms) :
    (ms.map (fun m => (m, (0 : ℚ)))).find? (fun p => p.1 == c) = some (c, 0) := by
  induction ms with
  | nil => cases h
  | cons m t ih =>
    by_cases hm : m = c
    · subst hm
      simp [List.find?]
    · have ht : c ∈ t := by
        rcases List.mem_cons.mp h with h1 | h1
        · exact absurd h1.symm hm
        · exact h1
      have hb : (m == c) = false := by simpa using hm
      simp [List.find?, hb, ih ht]

theorem not_mem_keys_of_find?_none (d : Record) (c : String)
    (h : d.find? (fun p => p.1 == c) = none) : c ∉ d.map Prod.fst := by
  intro hc
  rcases List.mem_map.mp hc with ⟨p, hp, he⟩
  have hnp := List.find?_eq_none.mp h p hp
  simp [he] at hnp

/-! ### The zero-fill fold and column alignment -/

theorem foldl_assign_append (ms : List String) (cols : List String) (row : List ℚ)
    (hms : ∀ m ∈ ms, m ∉ cols) (hnd : ms.Nodup) :
    ms.foldl (fun df feature => DataFrame.assign df feature 0)
      (⟨cols, [row]⟩ : DataFrame) =
      ⟨cols ++ ms, [row ++ ms.map (fun _ => (0 : ℚ))]⟩ := by
  induction ms generalizing cols row with
  | nil => simp
  | cons m t ih =>
    have hm : m ∉ cols := hms m (List.mem_cons_self m t)
    have step : DataFrame.assign (⟨cols, [row]⟩ : DataFrame) m 0 =
        ⟨cols ++ [m], [row ++ [0]]⟩ := by
      simp [DataFrame.assign, hm]
    rw [List.foldl_cons, step,
      ih (cols ++ [m]) (row ++ [0])
        (by
          intro x hx
          have hxc : x ∉ cols := hms x (List.mem_cons_of_mem m hx)
          have hxm : x ≠ m := by
            intro e
            subst e
            exact (List.nodup_cons.mp hnd).1 hx
          simp [hxc, hxm])
        ((List.nodup_cons.mp hnd).2)]
    simp

theorem select_all_mem (df : DataFrame) (cs : List String) (h : ∀ c ∈ cs, c ∈ df.cols) :
    df.select cs =
      Except.ok ⟨cs, df.rows.map (fun row => cs.map (fun c => (rowGet df.cols row c).getD 0))⟩ := by
  unfold DataFrame.select
  rw [if_pos h]

theorem preprocess_single_house_eq (d : Record) (s : Scaler) :
    preprocess_single_house d s =
      match ((s.feature_names_in_.filter
          (fun f => decide (f ∉ (pdDataFrame1 d).cols))).foldl
            (fun df feature => DataFrame.assign df feature 0) (pdDataFrame1 d)).select
          s.feature_names_in_ with
      | Except.ok df => s.transform df.rows
      | Except.error e => Except.error e := rfl

theorem preprocess_eq_transform_aligned (d : Record) (s : Scaler)
    (hn : s.feature_names_in_.Nodup) :
    preprocess_single_house d s = s.transform [alignedRow s.feature_names_in_ d] := by
  rw [preprocess_single_house_eq d s]
  set ms := s.feature_names_in_.filter (fun f => decide (f ∉ (pdDataFrame1 d).cols))
    with hmsdef
  have hmsmem : ∀ m ∈ ms, m ∉ d.map Prod.fst := by
    intro m hm
    rw [hmsdef] at hm
    have h2 := (List.mem_filter.mp hm).2
    simpa [pdDataFrame1] using h2
  have hmsnd : ms.Nodup := by
    rw [hmsdef]
    exact hn.filter _
  have hfold : ms.foldl (fun df feature => DataFrame.assign df feature 0) (pdDataFrame1 d) =
      ⟨d.map Prod.fst ++ ms, [d.map Prod.snd ++ ms.map (fun _ => (0 : ℚ))]⟩ :=
    foldl_assign_append ms (d.map Prod.fst) (d.map Prod.snd) hmsmem hmsnd
  rw [hfold]
  have hsel : ∀ c ∈ s.feature_names_in_, c ∈ d.map Prod.fst ++ ms := by
    intro c hc
    by_cases hck : c ∈ d.map Prod.fst
    · exact List.mem_append.mpr (Or.inl hck)
    · refine List.mem_append.mpr (Or.inr ?_)
      rw [hmsdef]
      refine List.mem_filter.mpr ⟨hc, ?_⟩
      simpa [pdDataFrame1] using hck
  rw [select_all_mem ⟨d.map Prod.fst ++ ms, [d.map Prod.snd ++ ms.map (fun _ => (0 : ℚ))]⟩
    s.feature_names_in_ hsel]
  have hzip : (d.map Prod.fst ++ ms).zip (d.map Prod.snd ++ ms.map (fun _ => (0 : ℚ))) =
      d ++ ms.map (fun m => (m, (0 : ℚ))) := by
    rw [List.zip_append (by simp), zip_fst_snd, zip_map_const]
  have hrow : ∀ c ∈ s.feature_names_in_,
      (rowGet (d.map Prod.fst ++ ms) (d.map Prod.snd ++ ms.map (fun _ => (0 : ℚ))) c).getD 0 =
        recordGetD d c 0 := by
    intro c hc
    unfold rowGet
    rw [hzip, find?_append_cases]
    cases hfd : d.find? (fun p => p.1 == c) with
    | some p => simp [recordGetD, hfd]
    | none =>
      have hck : c ∉ d.map Prod.fst := not_mem_keys_of_find?_none d c hfd
      have hcm : c ∈ ms := by
        rw [hmsdef]
        refine List.mem_filter.mpr ⟨hc, ?_⟩
        simpa [pdDataFrame1] using hck
      rw [find?_pair_zero ms c hcm]
      simp [recordGetD, hfd]
  show s.transform [s.feature_names_in_.map
      (fun c =>
        (rowGet (d.map Prod.fst ++ ms) (d.map Prod.snd ++ ms.map (fun _ => (0 : ℚ))) c).getD 0)] =
    s.transform [alignedRow s.feature_names_in_ d]
  rw [List.map_congr_left hrow]
  rfl

/-! ### Handler pipeline lemmas -/

theorem index00_npExpm1_ok (f : ℚ → ℚ) (a : List (List ℚ)) (y : ℚ)
    (h : index00 a = Except.ok y) : index00 (npExpm1 f a) = Except.ok (f y) := by
  match a, h with
  | (z :: r) :: t, h =>
    cases h
    rfl

theorem index00_npExpm1_error (f : ℚ → ℚ) (a : List (List ℚ)) (e : String)
    (h : index00 a = Except.error e) : index00 (npExpm1 f a) = Except.error e := by
  match a with
  | [] => exact h
  | [] :: t => exact h
  | (z :: r) :: t => exact absurd h (by simp [index00])

theorem handlePredict_ok (f : ℚ → ℚ) (m : KerasModel) (s : Scaler) (d : Record)
    (rows pred : List (List ℚ)) (y : ℚ)
    (h1 : preprocess_single_house d s = Except.ok rows)
    (h2 : m.predict rows = Except.ok pred)
    (h3 : index00 pred = Except.ok y) :
    handlePredict f m s (ReqBody.json (PyData.obj d)) =
      ⟨200, RespBody.jsonPrice (round2 (f y))⟩ := by
  have ht : tryBody f m s (PyData.obj d) = Except.ok (round2 (f y)) := by
    unfold tryBody
    simp [preprocessData, h1, h2, index00_npExpm1_ok f pred y h3]
  simp [handlePredict, requestJson, ht]

theorem handlePredict_err (f : ℚ → ℚ) (m : KerasModel) (s : Scaler) (data : PyData)
    (msg : String) (h : tryBody f m s data = Except.error msg) :
    handlePredict f m s (ReqBody.json data) = ⟨400, RespBody.jsonError msg⟩ := by
  simp [handlePredict, requestJson, h]

theorem runRequests_fst (f : ℚ → ℚ) (bs : List ReqBody) :
    ∀ st : ServerState, (runRequests f st bs).1 = st := by
  induction bs with
  | nil => intro st; rfl
  | cons b t ih => intro st; simpa [runRequests, handleRequest] using ih st

/-! ### Rounding lemmas -/

theorem one_le_pyRound (x : ℚ) (h : 1 ≤ x) : 1 ≤ pyRound x := by
  have hfl : (1 : ℤ) ≤ ⌊x⌋ := Int.le_floor.mpr (by exact_mod_cast h)
  unfold pyRound
  split
  · exact hfl
  · split
    · omega
    · split
      · exact hfl
      · omega

theorem round2_pos (x : ℚ) (h : 1 / 100 ≤ x) : 0 < round2 x := by
  have h1 : (1 : ℚ) ≤ 100 * x := by linarith
  have h2 : (1 : ℤ) ≤ pyRound (100 * x) := one_le_pyRound _ h1
  have hc : (0 : ℚ) < (pyRound (100 * x) : ℚ) := by
    exact_mod_cast (by omega : (0 : ℤ) < pyRound (100 * x))
  unfold round2
  exact div_pos hc (by norm_num)

/-! ### Objects and mutation: the dict and the frame inside
preprocess_single_house, threaded explicitly so that statements about
mutation of the caller's argument are expressible. -/

structure PyMem where
  house_data : Record
  house_df : DataFrame

/-- `house_df = pd.DataFrame([house_data])`: reads the dict, writes only the
freshly constructed frame. -/
def stepMakeFrame (m : PyMem) : PyMem :=
  ⟨m.house_data, pdDataFrame1 m.house_data⟩

/-- `house_df[feature] = 0`: writes only the frame. -/
def stepAssignZero (m : PyMem) (feature : String) : PyMem :=
  ⟨m.house_data, m.house_df.assign feature 0⟩

/-- `preprocess_single_house` with the dict and frame objects explicit. -/
def preprocessMem (m : PyMem) (s : Scaler) : PyMem × Except String (List (List ℚ)) :=
  let m1 := stepMakeFrame m
  let missing := s.feature_names_in_.filter (fun f => decide (f ∉ m1.house_df.cols))
  let m2 := missing.foldl stepAssignZero m1
  match m2.house_df.select s.feature_names_in_ with
  | Except.ok df => ((⟨m2.house_data, df⟩ : PyMem), s.transform df.rows)
  | Except.error e => (m2, Except.error e)

theorem foldl_stepAssignZero (ms : List String) (m : PyMem) :
    ms.foldl stepAssignZero m =
      ⟨m.house_data, ms.foldl (fun df feature => DataFrame.assign df feature 0) m.house_df⟩ := by
  induction ms generalizing m with
  | nil => rfl
  | cons a t ih =>
    rw [List.foldl_cons, List.foldl_cons, ih]
    rfl

/-! ### Concrete artifacts used by witnesses and counterexamples -/

/-- A concrete fitted scaler: two expected features, identity transform. -/
def sId : Scaler := ⟨["area", "rooms"], fun rows => Except.ok rows⟩

/-- A concrete scaler whose transform raises. -/
def sBoom : Scaler := ⟨["area"], fun _ => Except.error ("boom")⟩

/-- A model predicting log-price 1 on every input. -/
def mOne : KerasModel := ⟨fun _ => Except.ok [[1]]⟩

/-- A model predicting log-price 0 on every input. -/
def mZero : KerasModel := ⟨fun _ => Except.ok [[0]]⟩

/-- A model whose output array has entries beyond [0][0]. -/
def mWide : KerasModel := ⟨fun _ => Except.ok [[5, 7], [9]]⟩

/-- A model whose output array is exactly the [0][0] entry of mWide. -/
def mNarrow : KerasModel := ⟨fun _ => Except.ok [[5]]⟩

/-- A record that is missing the expected feature "rooms". -/
def recEx : Record := [("area", 3)]

/-- Properties of x mapsto exp(x) - 1 that are expressible over the
rationals: it fixes 0 and is strictly monotone. -/
def Expm1Spec (f : ℚ → ℚ) : Prop := f 0 = 0 ∧ StrictMono f

/-! ### The claims -/

/-- C1: for every input JSON object, preprocess_single_house hands the scaler
exactly the feature_names_in_ columns in that order — absent expected
features become zero and extra input fields are dropped — and consequently
the endpoint succeeds on a record missing some features (whenever the
trained artifacts succeed on the aligned row). -/
theorem C1_preprocess_alignment (d : Record) (s : Scaler)
    (hn : s.feature_names_in_.Nodup) :
    preprocess_single_house d s = s.transform [alignedRow s.feature_names_in_ d] ∧
    (∀ (f : ℚ → ℚ) (m : KerasModel) (rows pred : List (List ℚ)) (y : ℚ),
      s.transform [alignedRow s.feature_names_in_ d] = Except.ok rows →
      m.predict rows = Except.ok pred →
      index00 pred = Except.ok y →
      handlePredict f m s (ReqBody.json (PyData.obj d)) =
        ⟨200, RespBody.jsonPrice (round2 (f y))⟩) := by
  have hal := preprocess_eq_transform_aligned d s hn
  refine ⟨hal, ?_⟩
  intro f m rows pred y h1 h2 h3
  exact handlePredict_ok f m s d rows pred y (hal.trans h1) h2 h3

/-- C1 witness: the record [("area", 3)] is missing the expected feature
"rooms"; the scaler receives the aligned single row [3, 0] and the endpoint
returns 200 with a price. -/
theorem C1_witness :
    sId.feature_names_in_.Nodup ∧
    preprocess_single_house recEx sId = Except.ok [[3, 0]] ∧
    handlePredict id mOne sId (ReqBody.json (PyData.obj recEx)) =
      ⟨200, RespBody.jsonPrice 1⟩ := by
  have h := C1_preprocess_alignment recEx sId (by decide)
  have hr : round2 (id (1 : ℚ)) = 1 := by norm_num [round2, pyRound]
  refine ⟨by decide, ?_, ?_⟩
  · rw [h.1]
    rfl
  · rw [h.2 id mOne [[3, 0]] [[1]] 1 rfl rfl rfl, hr]

/-- C2: on the success path the returned price is round2 (expm1 y), where y
is the model output value and expm1 is the elementwise inverse log1p applied
before indexing and rounding. -/
theorem C2_price_round2_expm1 (f : ℚ → ℚ) (m : KerasModel) (s : Scaler) (d : Record)
    (rows pred : List (List ℚ)) (y : ℚ)
    (h1 : preprocess_single_house d s = Except.ok rows)
    (h2 : m.predict rows = Except.ok pred)
    (h3 : index00 pred = Except.ok y) :
    handlePredict f m s (ReqBody.json (PyData.obj d)) =
      ⟨200, RespBody.jsonPrice (round2 (f y))⟩ :=
  handlePredict_ok f m s d rows pred y h1 h2 h3

/-- C2 witness: with expm1 modelled by a concrete function adding 5, the
model output 1 comes back as round2 (1 + 5) = 6. -/
theorem C2_witness :
    preprocess_single_house recEx sId = Except.ok [[3, 0]] ∧
    mOne.predict [[3, 0]] = Except.ok [[1]] ∧
    index00 [[1]] = Except.ok 1 ∧
    handlePredict (fun q => q + 5) mOne sId (ReqBody.json (PyData.obj recEx)) =
      ⟨200, RespBody.jsonPrice 6⟩ := by
  have hp : preprocess_single_house recEx sId = Except.ok [[3, 0]] := by
    rw [preprocess_eq_transform_aligned recEx sId (by decide)]
    rfl
  have h := C2_price_round2_expm1 (fun q => q + 5) mOne sId recEx [[3, 0]] [[1]] 1 hp rfl rfl
  have hr : round2 ((1 : ℚ) + 5) = 6 := by norm_num [round2, pyRound]
  exact ⟨hp, rfl, rfl, by
    rw [h]
    exact congrArg (fun p => (⟨200, RespBody.jsonPrice p⟩ : HttpResponse)) hr⟩

/-- C3 counterexample: on a malformed body the response is the framework's
default error page, so it is NOT a JSON body with an error field (the parse
failure is raised by request.json before the try block). -/
theorem C3_counterexample :
    ¬ ((handlePredict id mOne sId ReqBody.malformed).status = 400 ∧
      ∃ e, (handlePredict id mOne sId ReqBody.malformed).body = RespBody.jsonError e) := by
  intro h
  rcases h.2 with ⟨e, he⟩
  rw [show handlePredict id mOne sId ReqBody.malformed = frameworkErrorResponse from rfl] at he
  exact RespBody.noConfusion he

/-- C3 amended: a malformed JSON body still yields HTTP status 400, but the
body is the framework's HTML error document, never the handler's jsonError
shape, because request.json runs before the try/except. -/
theorem C3_amended_framework_400 (f : ℚ → ℚ) (m : KerasModel) (s : Scaler) :
    handlePredict f m s ReqBody.malformed = frameworkErrorResponse ∧
    frameworkErrorResponse.status = 400 ∧
    ∀ e, frameworkErrorResponse.body ≠ RespBody.jsonError e := by
  refine ⟨rfl, rfl, ?_⟩
  intro e he
  exact RespBody.noConfusion he

/-- C4: every exception raised inside the try block — during preprocessing or
during inference (predict or the [0][0] indexing of the expm1-transformed
output) — is caught and returned as status 400 with the exception text as the
error field; none escapes the handler. -/
theorem C4_exceptions_caught (f : ℚ → ℚ) (m : KerasModel) (s : Scaler) (data : PyData)
    (msg : String)
    (h : preprocessData data s = Except.error msg ∨
      (∃ rows, preprocessData data s = Except.ok rows ∧
        m.predict rows = Except.error msg) ∨
      (∃ rows pred, preprocessData data s = Except.ok rows ∧
        m.predict rows = Except.ok pred ∧
        index00 (npExpm1 f pred) = Except.error msg)) :
    handlePredict f m s (ReqBody.json data) = ⟨400, RespBody.jsonError msg⟩ := by
  have ht : tryBody f m s data = Except.error msg := by
    unfold tryBody
    rcases h with h | ⟨rows, h1, h2⟩ | ⟨rows, pred, h1, h2, h3⟩
    · simp [h]
    · simp [h1, h2]
    · simp [h1, h2, h3]
  exact handlePredict_err f m s data msg ht

/-- C4 witness: a scaler whose transform raises with text boom produces the
response 400 with error boom. -/
theorem C4_witness :
    preprocessData (PyData.obj [("area", 1)]) sBoom = Except.error ("boom") ∧
    handlePredict id mOne sBoom (ReqBody.json (PyData.obj [("area", 1)])) =
      ⟨400, RespBody.jsonError ("boom")⟩ := by
  have hp : preprocessData (PyData.obj [("area", 1)]) sBoom = Except.error ("boom") := rfl
  exact ⟨hp, C4_exceptions_caught id mOne sBoom (PyData.obj [("area", 1)]) ("boom")
    (Or.inl hp)⟩

/-- C5 counterexample: the price is not always positive.  With any function
satisfying the expm1 laws (here the identity, which agrees with expm1 at the
evaluated point 0) and a model outputting log-price 0, the endpoint returns
price 0, which is not positive — np.expm1(0.0) is exactly 0.0. -/
theorem C5_counterexample :
    ¬ (∀ (f : ℚ → ℚ) (m : KerasModel) (s : Scaler) (d : Record) (p : ℚ),
      Expm1Spec f →
      handlePredict f m s (ReqBody.json (PyData.obj d)) = ⟨200, RespBody.jsonPrice p⟩ →
      0 < p) := by
  intro h
  have hspec : Expm1Spec id := ⟨rfl, fun a b hab => hab⟩
  have hp : preprocess_single_house recEx sId = Except.ok [[3, 0]] := by
    rw [preprocess_eq_transform_aligned recEx sId (by decide)]
    rfl
  have hok := handlePredict_ok id mZero sId recEx [[3, 0]] [[0]] 0 hp rfl rfl
  have hr : round2 (id (0 : ℚ)) = 0 := by norm_num [round2, pyRound]
  rw [hr] at hok
  exact absurd (h id mZero sId recEx 0 hspec hok) (lt_irrefl 0)

/-- C5 amended: on the success path the endpoint returns a float price, and
that price is positive whenever the expm1 of the model output is at least
0.01 (one cent); a model output y with expm1 y below that can round to a
zero or negative price. -/
theorem C5_amended_positive_price (f : ℚ → ℚ) (m : KerasModel) (s : Scaler) (d : Record)
    (rows pred : List (List ℚ)) (y : ℚ)
    (h1 : preprocess_single_house d s = Except.ok rows)
    (h2 : m.predict rows = Except.ok pred)
    (h3 : index00 pred = Except.ok y)
    (hy : 1 / 100 ≤ f y) :
    ∃ p, handlePredict f m s (ReqBody.json (PyData.obj d)) =
      ⟨200, RespBody.jsonPrice p⟩ ∧ 0 < p :=
  ⟨round2 (f y), handlePredict_ok f m s d rows pred y h1 h2 h3, round2_pos _ hy⟩

/-- C5 witness: with model output 1 and expm1 modelled by the identity the
price round2 1 = 1 is positive. -/
theorem C5_witness :
    (preprocess_single_house recEx sId = Except.ok [[3, 0]] ∧
      mOne.predict [[3, 0]] = Except.ok [[1]] ∧
      index00 [[1]] = Except.ok 1 ∧
      (1 : ℚ) / 100 ≤ id (1 : ℚ)) ∧
    ∃ p, handlePredict id mOne sId (ReqBody.json (PyData.obj recEx)) =
      ⟨200, RespBody.jsonPrice p⟩ ∧ 0 < p := by
  have hp : preprocess_single_house recEx sId = Except.ok [[3, 0]] := by
    rw [preprocess_eq_transform_aligned recEx sId (by decide)]
    rfl
  refine ⟨⟨hp, rfl, rfl, by norm_num⟩, ?_⟩
  exact C5_amended_positive_price id mOne sId recEx [[3, 0]] [[1]] 1 hp rfl rfl (by norm_num)

/-- C6 counterexample: the response to a malformed body matches neither of
the two claimed shapes — it is a 400 with an HTML body, not a jsonError. -/
theorem C6_counterexample :
    ¬ ((∃ p, handlePredict id mOne sId ReqBody.malformed =
        ⟨200, RespBody.jsonPrice p⟩) ∨
      (∃ e, handlePredict id mOne sId ReqBody.malformed =
        ⟨400, RespBody.jsonError e⟩)) := by
  intro h
  rcases h with ⟨p, hp⟩ | ⟨e, he⟩
  · have hs : (400 : Nat) = 200 := congrArg HttpResponse.status hp
    exact absurd hs (by decide)
  · have hb := congrArg HttpResponse.body he
    exact RespBody.noConfusion hb

/-- C6 amended: every response the handler itself produces has one of the two
shapes price-JSON with 200 or error-JSON with 400; the only other responses
are the framework's 400 HTML error page for bodies that fail JSON parsing. -/
theorem C6_amended_response_shapes (f : ℚ → ℚ) (m : KerasModel) (s : Scaler)
    (b : ReqBody) :
    (∃ p, handlePredict f m s b = ⟨200, RespBody.jsonPrice p⟩) ∨
    (∃ e, handlePredict f m s b = ⟨400, RespBody.jsonError e⟩) ∨
    (b = ReqBody.malformed ∧ handlePredict f m s b = frameworkErrorResponse) := by
  cases b with
  | malformed => exact Or.inr (Or.inr ⟨rfl, rfl⟩)
  | json data =>
    cases ht : tryBody f m s data with
    | ok price => exact Or.inl ⟨price, by simp [handlePredict, requestJson, ht]⟩
    | error e => exact Or.inr (Or.inl ⟨e, handlePredict_err f m s data e ht⟩)

/-- C7: the model and scaler are produced once by the startup load and no
sequence of requests ever changes them: the server state after any request
sequence equals the startup state. -/
theorem C7_artifacts_read_only (f : ℚ → ℚ) (modelFile : KerasModel)
    (scalerFile : Scaler) (bs : List ReqBody) :
    (runRequests f (startupState modelFile scalerFile) bs).1 =
      startupState modelFile scalerFile :=
  runRequests_fst f bs (startupState modelFile scalerFile)

/-- C8: preprocess_single_house never mutates its house_data argument: with
the caller's dict and the local frame threaded explicitly through every
statement of the function, the dict after the call equals the dict before,
and the computed result agrees with preprocess_single_house. -/
theorem C8_house_data_not_mutated (m : PyMem) (s : Scaler) :
    (preprocessMem m s).1.house_data = m.house_data ∧
    (preprocessMem m s).2 = preprocess_single_house m.house_data s := by
  simp only [preprocessMem, foldl_stepAssignZero, stepMakeFrame, preprocess_single_house_eq]
  constructor
  · split
    · rfl
    · rfl
  · split
    · rename_i heq
      rw [heq]
    · rename_i heq
      rw [heq]

/-- C9: the handler is deterministic — two requests with equal bodies handled
against the same loaded model and scaler produce identical responses. -/
theorem C9_deterministic (f : ℚ → ℚ) (st : ServerState) (b1 b2 : ReqBody)
    (h : b1 = b2) :
    handleRequest f st b1 = handleRequest f st b2 := by
  rw [h]

/-- C9 witness: two equal concrete requests produce the same response. -/
theorem C9_witness :
    ReqBody.json (PyData.obj recEx) = ReqBody.json (PyData.obj recEx) ∧
    handleRequest id ⟨mOne, sId⟩ (ReqBody.json (PyData.obj recEx)) =
      handleRequest id ⟨mOne, sId⟩ (ReqBody.json (PyData.obj recEx)) :=
  ⟨rfl, C9_deterministic id ⟨mOne, sId⟩ (ReqBody.json (PyData.obj recEx))
    (ReqBody.json (PyData.obj recEx)) rfl⟩

/-- C10: exactly one house per request — the frame built from the input
object has exactly one row, the scaler receives a single-row array, and the
response depends only on entry [0][0] of the model output: two models whose
outputs agree at [0][0] yield identical responses. -/
theorem C10_single_row_and_index00 (f : ℚ → ℚ) (m1 m2 : KerasModel) (s : Scaler)
    (d : Record) (hn : s.feature_names_in_.Nodup) :
    (pdDataFrame1 d).rows.length = 1 ∧
    preprocess_single_house d s = s.transform [alignedRow s.feature_names_in_ d] ∧
    (∀ rows pred1 pred2,
      preprocess_single_house d s = Except.ok rows →
      m1.predict rows = Except.ok pred1 →
      m2.predict rows = Except.ok pred2 →
      index00 pred1 = index00 pred2 →
      handlePredict f m1 s (ReqBody.json (PyData.obj d)) =
        handlePredict f m2 s (ReqBody.json (PyData.obj d))) := by
  refine ⟨rfl, preprocess_eq_transform_aligned d s hn, ?_⟩
  intro rows pred1 pred2 h1 h2 h3 h00
  cases hi : index00 pred1 with
  | ok y =>
    have hi2 : index00 pred2 = Except.ok y := by rw [← h00, hi]
    rw [handlePredict_ok f m1 s d rows pred1 y h1 h2 hi,
      handlePredict_ok f m2 s d rows pred2 y h1 h3 hi2]
  | error e =>
    have hi2 : index00 pred2 = Except.error e := by rw [← h00, hi]
    have he1 : tryBody f m1 s (PyData.obj d) = Except.error e := by
      unfold tryBody
      simp [preprocessData, h1, h2, index00_npExpm1_error f pred1 e hi]
    have he2 : tryBody f m2 s (PyData.obj d) = Except.error e := by
      unfold tryBody
      simp [preprocessData, h1, h3, index00_npExpm1_error f pred2 e hi2]
    rw [handlePredict_err f m1 s (PyData.obj d) e he1,
      handlePredict_err f m2 s (PyData.obj d) e he2]

/-- C10 witness: a model output with extra entries beyond [0][0] yields the
same response as one consisting of the [0][0] entry alone. -/
theorem C10_witness :
    sId.feature_names_in_.Nodup ∧
    (preprocess_single_house recEx sId = Except.ok [[3, 0]] ∧
      mWide.predict [[3, 0]] = Except.ok [[5, 7], [9]] ∧
      mNarrow.predict [[3, 0]] = Except.ok [[5]] ∧
      index00 [[5, 7], [9]] = index00 [[5]]) ∧
    handlePredict id mWide sId (ReqBody.json (PyData.obj recEx)) =
      handlePredict id mNarrow sId (ReqBody.json (PyData.obj recEx)) := by
  have hp : preprocess_single_house recEx sId = Except.ok [[3, 0]] := by
    rw [preprocess_eq_transform_aligned recEx sId (by decide)]
    rfl
  refine ⟨by decide, ⟨hp, rfl, rfl, rfl⟩, ?_⟩
  exact (C10_single_row_and_index00 id mWide mNarrow sId recEx (by decide)).2.2
    [[3, 0]] [[5, 7], [9]] [[5]] hp rfl rfl rfl
